import Mathlib

/-!
Shallow embedding of `staging/src/k8s.io/apiserver/pkg/admission/plugin/cel/filter.go`
(package `cel` of the apiserver admission plugin): the CEL expression filter that
compiles a list of expressions once and evaluates them per admission request.

Modelling conventions:
- Go `error` values are represented by `String` messages; fallible Go functions
  returning `(T, error)` become `Except String T`.
- Go `nil` interface values and nil pointers are represented by `Option`.
- The generic attribute mapping `map[string]interface{}` produced by
  `runtime.DefaultUnstructuredConverter.ToUnstructured` is abstracted as an opaque
  payload `Unstr := Nat`; likewise a CEL `ref.Val` is abstracted as `CelVal := Nat`.
  The claims under verification never inspect the interior of these values.
- External collaborators (the unstructured converter, the cel-go compiler, the
  compiled `cel.Program`) are passed as function parameters, so every theorem
  quantifies over all deterministic collaborator behaviours.
- `time.Now()` / `time.Since` wall-clock measurement is modelled by an oracle
  `elapsed : Nat → Nat` giving the measured duration of the execution attempt at
  each loop index; slots whose program is never executed keep the zero value,
  exactly as in the Go code where `evaluation.Elapsed` is only assigned after
  `Program.Eval` runs.
-/

namespace KubeCelFilter

/-- Abstraction of the `map[string]interface{}` content held by
`unstructured.Unstructured.Object`. -/
abbrev Unstr := Nat

/-- Abstraction of a CEL `ref.Val` evaluation result. -/
abbrev CelVal := Nat

/-- Abstraction of a `runtime.Object` (only its convertibility matters here). -/
structure RuntimeObject where
  payload : Nat
deriving DecidableEq

/-- Abstraction of an `admissionv1.AdmissionRequest` record; `ForInput` receives a
pointer to one (possibly nil) and projects it with the same unstructured converter. -/
structure AdmissionRequest where
  payload : Nat
deriving DecidableEq

/-- Embeds `unstructured.Unstructured`: a wrapper holding a possibly-nil generic
object mapping. -/
structure Unstructured where
  object : Option Unstr
deriving DecidableEq

/-- Embeds the `ExpressionAccessor` interface: the capability of yielding the
expression's own source text. -/
structure ExpressionAccessor where
  getExpression : String
deriving DecidableEq

/-- Modelled from the spec: the four reserved CEL variable names (`ObjectVarName`
and friends are package constants defined outside `filter.go`, hence outside the
provided source). The spec names them `object`, `oldObject`, `params`, `request`. -/
def ObjectVarName : String := "object"

/-- Modelled from the spec: reserved variable name for the prior object version. -/
def OldObjectVarName : String := "oldObject"

/-- Modelled from the spec: reserved variable name for the caller parameters. -/
def ParamsVarName : String := "params"

/-- Modelled from the spec: reserved variable name for the request metadata. -/
def RequestVarName : String := "request"

/-- Embeds `evaluationActivation`: the per-evaluation variable binding with
exactly four slots, each holding a possibly-nil generic value. -/
structure evaluationActivation where
  object : Option Unstr
  oldObject : Option Unstr
  params : Option Unstr
  request : Option Unstr
deriving DecidableEq

/-- Embeds `evaluationActivation.ResolveName`: a switch on the name returning the
slot value and `true` for the four reserved names, `(nil, false)` otherwise.
The Go switch statement is a sequence of string-equality tests. -/
def evaluationActivation.ResolveName (a : evaluationActivation) (name : String) :
    Option Unstr × Bool :=
  if name = ObjectVarName then (a.object, true)
  else if name = OldObjectVarName then (a.oldObject, true)
  else if name = ParamsVarName then (a.params, true)
  else if name = RequestVarName then (a.request, true)
  else (none, false)

/-- Embeds `evaluationActivation.Parent`: always returns nil (no parent scope). -/
def evaluationActivation.Parent (_ : evaluationActivation) :
    Option evaluationActivation :=
  none

/-- Embeds a compiled `cel.Program`: its `Eval` method executes against an
activation, yielding a value or a runtime error. Passed in as an opaque,
deterministic collaborator. -/
structure Program where
  Eval : evaluationActivation → Except String CelVal

/-- Embeds `CompilationResult`: the per-expression compile outcome holding the
originating accessor, an optional program and an optional compile error. -/
structure CompilationResult where
  expressionAccessor : ExpressionAccessor
  program : Option Program
  error : Option String

/-- Embeds the `filter` struct: an ordered list of compilation results. -/
structure filter where
  compilationResults : List CompilationResult

/-- Embeds `NewFilter`. -/
def NewFilter (compilationResults : List CompilationResult) : filter :=
  { compilationResults := compilationResults }

/-- Modelled from the spec: `CompileCELExpression` (the Compiler collaborator,
package code outside the provided source file). Per the spec it invokes the
external expression-language compiler with the expression source and `hasParam`
and records the outcome as a `CompilationResult` carrying the originating
accessor and exactly one of a `Program` or an `Error`. The external cel-go
compiler itself is the parameter `celCompile`. -/
def CompileCELExpression (celCompile : String → Bool → Except String Program)
    (expressionAccessor : ExpressionAccessor) (hasParam : Bool) : CompilationResult :=
  match celCompile expressionAccessor.getExpression hasParam with
  | Except.ok prog =>
      { expressionAccessor := expressionAccessor, program := some prog, error := none }
  | Except.error e =>
      { expressionAccessor := expressionAccessor, program := none, error := some e }

/-- Embeds `filterCompiler.Compile`: returns nil (`none`) on an empty expression
list, otherwise one `CompilationResult` per expression, in input order. -/
def filterCompiler.Compile (celCompile : String → Bool → Except String Program)
    (expressionAccessors : List ExpressionAccessor) (hasParam : Bool) : Option filter :=
  if expressionAccessors.length = 0 then
    none
  else
    some (NewFilter (expressionAccessors.map
      (fun expressionAccessor => CompileCELExpression celCompile expressionAccessor hasParam)))

/-- Embeds `convertObjectToUnstructured`: a nil object (nil interface or nil
pointer, both `none` here) becomes an `Unstructured` with a nil inner object and
no error; otherwise the unstructured-converter collaborator `toUnstructured`
is consulted and its error propagated. -/
def convertObjectToUnstructured {α : Type} (toUnstructured : α → Except String Unstr)
    (obj : Option α) : Except String Unstructured :=
  match obj with
  | none => Except.ok { object := none }
  | some o =>
    match toUnstructured o with
    | Except.error err => Except.error err
    | Except.ok ret => Except.ok { object := some ret }

/-- Embeds `objectToResolveVal`: a nil `runtime.Object` resolves to nil without
error; otherwise the object is converted and the inner mapping returned. -/
def objectToResolveVal {α : Type} (toUnstructured : α → Except String Unstr)
    (r : Option α) : Except String (Option Unstr) :=
  match r with
  | none => Except.ok none
  | some _ =>
    match convertObjectToUnstructured toUnstructured r with
    | Except.error err => Except.error err
    | Except.ok v => Except.ok v.object

/-- Embeds the fields of `generic.VersionedAttributes` used by `ForInput`
(the versioned new and old objects, either possibly nil). -/
structure VersionedAttributes where
  versionedObject : Option RuntimeObject
  versionedOldObject : Option RuntimeObject
deriving DecidableEq

/-- Embeds `EvaluationResult`: the per-expression output record. Zero values of
the Go struct are the defaults (`nil` accessor, `nil` value, `nil` error,
zero duration). -/
structure EvaluationResult where
  expressionAccessor : Option ExpressionAccessor := none
  evalResult : Option CelVal := none
  error : Option String := none
  elapsed : Nat := 0
deriving DecidableEq

/-- The body of the `ForInput` loop for one `CompilationResult`: set the
accessor, then either record a wrapped compilation error, or the defensive
internal error when the program is absent, or execute the program (recording the
measured elapsed duration) and store the wrapped runtime error or the value. -/
def evalCompilationResult (elapsedMeasure : Nat) (va : evaluationActivation)
    (compilationResult : CompilationResult) : EvaluationResult :=
  let evaluation : EvaluationResult :=
    { expressionAccessor := some compilationResult.expressionAccessor }
  match compilationResult.error with
  | some e =>
    { evaluation with error := some ("compilation error: " ++ e) }
  | none =>
    match compilationResult.program with
    | none =>
      { evaluation with error := some "unexpected internal error compiling expression" }
    | some prog =>
      match prog.Eval va with
      | Except.error err =>
        { evaluation with
          elapsed := elapsedMeasure,
          error := some ("expression '" ++ compilationResult.expressionAccessor.getExpression
            ++ "' resulted in error: " ++ err) }
      | Except.ok evalResult =>
        { evaluation with elapsed := elapsedMeasure, evalResult := some evalResult }

/-- The `for i, compilationResult := range f.compilationResults` loop of
`ForInput`, carrying the running index so the elapsed-time oracle is consulted
per slot. -/
def evalLoop (elapsed : Nat → Nat) (va : evaluationActivation) :
    Nat → List CompilationResult → List EvaluationResult
  | _, [] => []
  | i, compilationResult :: rest =>
    evalCompilationResult (elapsed i) va compilationResult :: evalLoop elapsed va (i + 1) rest

/-- The input-conversion prefix of `ForInput`: projects the old object, new
object, params and request (in that source order, returning the first failure)
and builds the per-call activation. -/
def buildActivation (toUnstructured : RuntimeObject → Except String Unstr)
    (toUnstructuredReq : AdmissionRequest → Except String Unstr)
    (versionedAttr : VersionedAttributes) (versionedParams : Option RuntimeObject)
    (request : Option AdmissionRequest) : Except String evaluationActivation :=
  match objectToResolveVal toUnstructured versionedAttr.versionedOldObject with
  | Except.error err => Except.error err
  | Except.ok oldObjectVal =>
    match objectToResolveVal toUnstructured versionedAttr.versionedObject with
    | Except.error err => Except.error err
    | Except.ok objectVal =>
      match objectToResolveVal toUnstructured versionedParams with
      | Except.error err => Except.error err
      | Except.ok paramsVal =>
        match convertObjectToUnstructured toUnstructuredReq request with
        | Except.error err => Except.error err
        | Except.ok requestVal =>
          Except.ok
            { object := objectVal, oldObject := oldObjectVal,
              params := paramsVal, request := requestVal.object }

/-- Embeds `filter.ForInput`: converts the four inputs (aborting the whole call
on the first conversion failure), then evaluates every compilation result in
stored order against the shared activation. Per-expression failures are recorded
in the corresponding slot, never as the top-level error. -/
def filter.ForInput (toUnstructured : RuntimeObject → Except String Unstr)
    (toUnstructuredReq : AdmissionRequest → Except String Unstr)
    (elapsed : Nat → Nat) (f : filter) (versionedAttr : VersionedAttributes)
    (versionedParams : Option RuntimeObject) (request : Option AdmissionRequest) :
    Except String (List EvaluationResult) :=
  match buildActivation toUnstructured toUnstructuredReq versionedAttr versionedParams request with
  | Except.error err => Except.error err
  | Except.ok va => Except.ok (evalLoop elapsed va 0 f.compilationResults)

/-- Embeds `filter.CompilationErrors`: the Go loop appending each non-nil
compile error, in stored order, to an initially empty slice. -/
def filter.CompilationErrors (e : filter) : List String :=
  e.compilationResults.foldl
    (fun compilationErrors result =>
      match result.error with
      | some err => compilationErrors ++ [err]
      | none => compilationErrors) []

/-- Projection of an `EvaluationResult` that drops the elapsed-time field,
keeping the accessor, the evaluated value and the error classification. -/
def EvaluationResult.stripElapsed (r : EvaluationResult) :
    Option ExpressionAccessor × Option CelVal × Option String :=
  (r.expressionAccessor, r.evalResult, r.error)

/-! ### Concrete sample collaborators and data, used to instantiate theorems -/

/-- Sample unstructured converter that always succeeds. -/
def convOk : RuntimeObject → Except String Unstr := fun r => Except.ok r.payload

/-- Sample request converter that always succeeds. -/
def convReqOk : AdmissionRequest → Except String Unstr := fun r => Except.ok r.payload

/-- Sample unstructured converter that always fails. -/
def convBad : RuntimeObject → Except String Unstr := fun _ => Except.error "conversion failed"

/-- Sample compiled program that evaluates to a value. -/
def progOk : Program := { Eval := fun _ => Except.ok 7 }

/-- Sample compiled program whose execution signals a runtime error. -/
def progBad : Program := { Eval := fun _ => Except.error "no such field" }

/-- Sample external CEL compiler that compiles every expression. -/
def celCompileOk : String → Bool → Except String Program := fun _ _ => Except.ok progOk

/-- Sample expression accessor. -/
def eaRepl : ExpressionAccessor := { getExpression := "object.replicas > 0" }

/-- Sample expression accessor for an expression that fails at run time. -/
def eaBogus : ExpressionAccessor := { getExpression := "object.bogus.field" }

/-- Sample elapsed-time oracle measuring zero for every slot. -/
def zeroElapsed : Nat → Nat := fun _ => 0

/-- Sample compilation result: compiled successfully, evaluates to a value. -/
def crOk : CompilationResult :=
  { expressionAccessor := eaRepl, program := some progOk, error := none }

/-- Sample compilation result: compiled successfully, fails at run time. -/
def crBad : CompilationResult :=
  { expressionAccessor := eaBogus, program := some progBad, error := none }

/-- Sample compilation result: failed to compile. -/
def crCompileFail : CompilationResult :=
  { expressionAccessor := eaBogus, program := none, error := some "type error" }

/-- Sample compilation result violating the compiler contract: neither a
program nor an error. -/
def crNoProgram : CompilationResult :=
  { expressionAccessor := eaBogus, program := none, error := none }

/-- Sample versioned attributes with both objects absent. -/
def emptyAttrs : VersionedAttributes :=
  { versionedObject := none, versionedOldObject := none }

/-- The activation built from all-nil inputs. -/
def emptyActivation : evaluationActivation :=
  { object := none, oldObject := none, params := none, request := none }

/-- The evaluation result the loop produces for `crBad` on any activation. -/
def resultBad : EvaluationResult :=
  { expressionAccessor := some eaBogus, evalResult := none,
    error := some "expression 'object.bogus.field' resulted in error: no such field",
    elapsed := 0 }

/-- The evaluation result the loop produces for `crCompileFail`. -/
def resultCompileFail : EvaluationResult :=
  { expressionAccessor := some eaBogus, evalResult := none,
    error := some "compilation error: type error", elapsed := 0 }

/-- The evaluation result the loop produces for `crOk` on any activation. -/
def resultOk : EvaluationResult :=
  { expressionAccessor := some eaRepl, evalResult := some 7, error := none, elapsed := 0 }

/-! ### Helper lemmas about the evaluation loop -/

/-- The accessor recorded by the compiler collaborator is the originating one,
whether compilation succeeded or failed. -/
theorem compileCELExpression_accessor (celCompile : String → Bool → Except String Program)
    (expressionAccessor : ExpressionAccessor) (hasParam : Bool) :
    (CompileCELExpression celCompile expressionAccessor hasParam).expressionAccessor
      = expressionAccessor := by
  unfold CompileCELExpression
  cases celCompile expressionAccessor.getExpression hasParam <;> rfl

/-- Every branch of the loop body records the compilation result's accessor. -/
theorem evalCompilationResult_accessor (elapsedMeasure : Nat) (va : evaluationActivation)
    (compilationResult : CompilationResult) :
    (evalCompilationResult elapsedMeasure va compilationResult).expressionAccessor
      = some compilationResult.expressionAccessor := by
  unfold evalCompilationResult
  cases compilationResult.error with
  | some e => rfl
  | none =>
    cases compilationResult.program with
    | none => rfl
    | some prog => cases h : prog.Eval va <;> simp [h]

/-- Loop-body branch: a recorded compile error yields the wrapped message, no
value, and the zero elapsed duration; the program is never consulted. -/
theorem evalCompilationResult_compile_error (elapsedMeasure : Nat)
    (va : evaluationActivation) (compilationResult : CompilationResult) (e : String)
    (h : compilationResult.error = some e) :
    evalCompilationResult elapsedMeasure va compilationResult
      = { expressionAccessor := some compilationResult.expressionAccessor,
          evalResult := none,
          error := some ("compilation error: " ++ e),
          elapsed := 0 } := by
  unfold evalCompilationResult
  simp [h]

/-- Loop-body branch: no compile error but no program either yields the
defensive internal-error message, no value, and the zero elapsed duration. -/
theorem evalCompilationResult_internal_error (elapsedMeasure : Nat)
    (va : evaluationActivation) (compilationResult : CompilationResult)
    (herr : compilationResult.error = none) (hprog : compilationResult.program = none) :
    evalCompilationResult elapsedMeasure va compilationResult
      = { expressionAccessor := some compilationResult.expressionAccessor,
          evalResult := none,
          error := some "unexpected internal error compiling expression",
          elapsed := 0 } := by
  unfold evalCompilationResult
  simp [herr, hprog]

/-- Loop-body branch: execution signalling an error yields the wrapped message
containing the expression source, no value, and the measured duration. -/
theorem evalCompilationResult_eval_error (elapsedMeasure : Nat)
    (va : evaluationActivation) (compilationResult : CompilationResult)
    (prog : Program) (msg : String)
    (herr : compilationResult.error = none) (hprog : compilationResult.program = some prog)
    (heval : prog.Eval va = Except.error msg) :
    evalCompilationResult elapsedMeasure va compilationResult
      = { expressionAccessor := some compilationResult.expressionAccessor,
          evalResult := none,
          error := some ("expression '" ++ compilationResult.expressionAccessor.getExpression
            ++ "' resulted in error: " ++ msg),
          elapsed := elapsedMeasure } := by
  unfold evalCompilationResult
  simp [herr, hprog, heval]

/-- Loop-body branch: successful execution yields the value, no error, and the
measured duration. -/
theorem evalCompilationResult_eval_ok (elapsedMeasure : Nat)
    (va : evaluationActivation) (compilationResult : CompilationResult)
    (prog : Program) (v : CelVal)
    (herr : compilationResult.error = none) (hprog : compilationResult.program = some prog)
    (heval : prog.Eval va = Except.ok v) :
    evalCompilationResult elapsedMeasure va compilationResult
      = { expressionAccessor := some compilationResult.expressionAccessor,
          evalResult := some v,
          error := none,
          elapsed := elapsedMeasure } := by
  unfold evalCompilationResult
  simp [herr, hprog, heval]

/-- The elapsed-time oracle never affects the accessor, value or error of a
slot, only its elapsed field. -/
theorem stripElapsed_evalCompilationResult (t1 t2 : Nat) (va : evaluationActivation)
    (compilationResult : CompilationResult) :
    (evalCompilationResult t1 va compilationResult).stripElapsed
      = (evalCompilationResult t2 va compilationResult).stripElapsed := by
  unfold evalCompilationResult EvaluationResult.stripElapsed
  cases compilationResult.error with
  | some e => rfl
  | none =>
    cases compilationResult.program with
    | none => rfl
    | some prog => cases h : prog.Eval va <;> simp [h]

/-- The evaluation loop produces one output slot per compilation result. -/
theorem evalLoop_length (elapsed : Nat → Nat) (va : evaluationActivation) (i : Nat)
    (l : List CompilationResult) : (evalLoop elapsed va i l).length = l.length := by
  induction l generalizing i with
  | nil => rfl
  | cons hd tl ih => simp [evalLoop, ih]

/-- Slot `j` of the evaluation loop started at index `i` is the evaluation of
compilation result `j` with measured elapsed time `elapsed (i + j)`. -/
theorem evalLoop_get (elapsed : Nat → Nat) (va : evaluationActivation) (i : Nat)
    (l : List CompilationResult) (j : Nat) (hj : j < (evalLoop elapsed va i l).length)
    (hj' : j < l.length) :
    (evalLoop elapsed va i l).get ⟨j, hj⟩
      = evalCompilationResult (elapsed (i + j)) va (l.get ⟨j, hj'⟩) := by
  induction l generalizing i j with
  | nil => exact absurd hj' (by simp)
  | cons hd tl ih =>
    cases j with
    | zero => simp [evalLoop]
    | succ j =>
      have hj2 : j < (evalLoop elapsed va (i + 1) tl).length := by
        simpa [evalLoop] using hj
      have hj2' : j < tl.length := by simpa using hj'
      have := ih (i + 1) j hj2 hj2'
      simpa [evalLoop, Nat.add_assoc, Nat.add_comm 1 j] using this

/-- Modulo elapsed time, the evaluation loop does not depend on the elapsed
oracle or the starting index. -/
theorem stripElapsed_evalLoop (e1 e2 : Nat → Nat) (va : evaluationActivation)
    (i j : Nat) (l : List CompilationResult) :
    (evalLoop e1 va i l).map EvaluationResult.stripElapsed
      = (evalLoop e2 va j l).map EvaluationResult.stripElapsed := by
  induction l generalizing i j with
  | nil => rfl
  | cons hd tl ih =>
    simp only [evalLoop, List.map_cons]
    exact congrArg₂ _ (stripElapsed_evalCompilationResult (e1 i) (e2 j) va hd)
      (ih (i + 1) (j + 1))

/-- `ForInput` succeeds exactly when the activation can be built, and then its
result is the evaluation loop over the stored compilation results. -/
theorem forInput_ok_iff (toUnstructured : RuntimeObject → Except String Unstr)
    (toUnstructuredReq : AdmissionRequest → Except String Unstr)
    (elapsed : Nat → Nat) (f : filter) (versionedAttr : VersionedAttributes)
    (versionedParams : Option RuntimeObject) (request : Option AdmissionRequest)
    (results : List EvaluationResult) :
    f.ForInput toUnstructured toUnstructuredReq elapsed versionedAttr versionedParams request
        = Except.ok results
      ↔ ∃ va, buildActivation toUnstructured toUnstructuredReq versionedAttr
            versionedParams request = Except.ok va
          ∧ results = evalLoop elapsed va 0 f.compilationResults := by
  unfold filter.ForInput
  cases h : buildActivation toUnstructured toUnstructuredReq versionedAttr
      versionedParams request with
  | error err => simp
  | ok va =>
    simp only [Except.ok.injEq]
    constructor
    · intro hr
      exact ⟨va, rfl, hr.symm⟩
    · rintro ⟨va2, hva2, hr⟩
      cases hva2
      exact hr.symm

/-- Unfolding of the accumulating loop in `CompilationErrors`: the fold with any
accumulator is that accumulator followed by the errors of the list. -/
theorem compilationErrors_foldl (l : List CompilationResult) (acc : List String) :
    l.foldl
      (fun compilationErrors result =>
        match result.error with
        | some err => compilationErrors ++ [err]
        | none => compilationErrors) acc
      = acc ++ l.filterMap (fun result => result.error) := by
  induction l generalizing acc with
  | nil => simp
  | cons hd tl ih =>
    cases h : hd.error with
    | none => simp [List.foldl_cons, h, ih, List.filterMap_cons]
    | some err => simp [List.foldl_cons, h, ih, List.filterMap_cons]

/-! ### Claim theorems -/

/-- Claim C5: for every value of `hasParam` (and every external compiler),
`Compile` applied to an empty expression list returns the no-filter sentinel
(`none`), never a present filter holding zero compilation results. -/
theorem compile_empty_returns_no_filter
    (celCompile : String → Bool → Except String Program) (hasParam : Bool) :
    filterCompiler.Compile celCompile [] hasParam = none := rfl

/-- Claim C7: an absent (nil) new object, old object or params object projects
to a nil value without error (`objectToResolveVal` is the projection applied to
each of the three), and `convertObjectToUnstructured` of a nil object is an
empty `Unstructured` without error; consequently, building the activation with
all inputs absent succeeds and every variable resolves to nil rather than the
call failing with an input-conversion error. -/
theorem nil_objects_project_empty
    (toUnstructured : RuntimeObject → Except String Unstr)
    (toUnstructuredReq : AdmissionRequest → Except String Unstr) :
    objectToResolveVal toUnstructured (none : Option RuntimeObject) = Except.ok none
  ∧ convertObjectToUnstructured toUnstructured (none : Option RuntimeObject)
      = Except.ok { object := none }
  ∧ buildActivation toUnstructured toUnstructuredReq
        { versionedObject := none, versionedOldObject := none } none none
      = Except.ok { object := none, oldObject := none, params := none, request := none } :=
  ⟨rfl, rfl, rfl⟩

/-- Claim C8: `CompilationErrors` returns exactly the compile errors recorded at
compile time, in stored input order, skipping expressions that compiled
successfully (i.e. it is the `filterMap` of the error field over the stored
compilation results). The function is pure, so it cannot modify the filter. -/
theorem compilationErrors_in_stored_order (f : filter) :
    f.CompilationErrors = f.compilationResults.filterMap (fun result => result.error) := by
  unfold filter.CompilationErrors
  simpa using compilationErrors_foldl f.compilationResults []

/-- Claim C9: with the same filter, converters and inputs, and deterministic
collaborator programs, two `ForInput` calls agree on every slot's accessor,
evaluated value and error classification, and on the top-level outcome, even
when their elapsed-time measurements (`elapsed1`, `elapsed2`) differ — only the
elapsed field may differ between the runs. The embedding is pure, so neither
call mutates the filter. -/
theorem forInput_deterministic_modulo_elapsed
    (toUnstructured : RuntimeObject → Except String Unstr)
    (toUnstructuredReq : AdmissionRequest → Except String Unstr)
    (elapsed1 elapsed2 : Nat → Nat) (f : filter) (versionedAttr : VersionedAttributes)
    (versionedParams : Option RuntimeObject) (request : Option AdmissionRequest) :
    Except.map (List.map EvaluationResult.stripElapsed)
        (f.ForInput toUnstructured toUnstructuredReq elapsed1 versionedAttr
          versionedParams request)
      = Except.map (List.map EvaluationResult.stripElapsed)
        (f.ForInput toUnstructured toUnstructuredReq elapsed2 versionedAttr
          versionedParams request) := by
  unfold filter.ForInput
  cases h : buildActivation toUnstructured toUnstructuredReq versionedAttr
      versionedParams request with
  | error err => rfl
  | ok va =>
    simp only [Except.map]
    exact congrArg Except.ok (stripElapsed_evalLoop elapsed1 elapsed2 va 0 0 f.compilationResults)

/-- Claim C6: `ResolveName` finds exactly the four reserved names `object`,
`oldObject`, `params`, `request`, each yielding its stored slot value (so
`params` resolves with found = true even when its stored value is nil); every
other name yields `(nil, false)`; and the activation has no parent scope. -/
theorem resolveName_reserved_names (a : evaluationActivation) (name : String) :
    a.ResolveName ObjectVarName = (a.object, true)
  ∧ a.ResolveName OldObjectVarName = (a.oldObject, true)
  ∧ a.ResolveName ParamsVarName = (a.params, true)
  ∧ a.ResolveName RequestVarName = (a.request, true)
  ∧ ((a.ResolveName name).2 = true ↔
      name = ObjectVarName ∨ name = OldObjectVarName ∨ name = ParamsVarName
        ∨ name = RequestVarName)
  ∧ (¬(name = ObjectVarName ∨ name = OldObjectVarName ∨ name = ParamsVarName
        ∨ name = RequestVarName) → a.ResolveName name = (none, false))
  ∧ a.Parent = none := by
  refine ⟨by simp [evaluationActivation.ResolveName],
    by simp [evaluationActivation.ResolveName, OldObjectVarName, ObjectVarName],
    by simp [evaluationActivation.ResolveName, ParamsVarName, ObjectVarName, OldObjectVarName],
    by simp [evaluationActivation.ResolveName, RequestVarName, ObjectVarName, OldObjectVarName,
      ParamsVarName],
    ?_, ?_, rfl⟩
  · unfold evaluationActivation.ResolveName
    by_cases h1 : name = ObjectVarName
    · simp [h1]
    · by_cases h2 : name = OldObjectVarName
      · simp [h1, h2, ObjectVarName, OldObjectVarName]
      · by_cases h3 : name = ParamsVarName
        · simp [h1, h2, h3, ObjectVarName, OldObjectVarName, ParamsVarName]
        · by_cases h4 : name = RequestVarName
          · simp [h1, h2, h3, h4, ObjectVarName, OldObjectVarName, ParamsVarName, RequestVarName]
          · simp [h1, h2, h3, h4]
  · intro h
    push_neg at h
    obtain ⟨h1, h2, h3, h4⟩ := h
    unfold evaluationActivation.ResolveName
    simp [h1, h2, h3, h4]

/-- Witness for C6 at a concrete activation: `params` resolves to its stored
nil-able value with found = true, and an unreserved name resolves to
`(nil, false)`. -/
theorem resolveName_reserved_names_witness :
    evaluationActivation.ResolveName
        { object := some 1, oldObject := none, params := some 2, request := none } "params"
      = (some 2, true)
  ∧ evaluationActivation.ResolveName
        { object := some 1, oldObject := none, params := some 2, request := none } "bogus"
      = (none, false) := by
  have h := resolveName_reserved_names
    { object := some 1, oldObject := none, params := some 2, request := none } "bogus"
  exact ⟨h.2.2.1, h.2.2.2.2.2.1 (by decide)⟩

/-- Claim C1: for every non-empty expression list, `Compile` returns a present
filter holding one compilation result per expression in input order (slot `i`
carries the accessor of expression `i`), and every `ForInput` call that returns
a result list returns exactly one `EvaluationResult` per expression, where
slot `i` carries the accessor of expression `i`, in every branch of the loop. -/
theorem compile_forInput_positional_stability
    (celCompile : String → Bool → Except String Program)
    (exprs : List ExpressionAccessor) (hasParam : Bool) (hne : exprs ≠ []) :
    ∃ f : filter,
      filterCompiler.Compile celCompile exprs hasParam = some f
      ∧ f.compilationResults.length = exprs.length
      ∧ (∀ (i : Nat) (hf : i < f.compilationResults.length) (he : i < exprs.length),
          (f.compilationResults.get ⟨i, hf⟩).expressionAccessor = exprs.get ⟨i, he⟩)
      ∧ (∀ (toUnstructured : RuntimeObject → Except String Unstr)
           (toUnstructuredReq : AdmissionRequest → Except String Unstr)
           (elapsed : Nat → Nat) (versionedAttr : VersionedAttributes)
           (versionedParams : Option RuntimeObject) (request : Option AdmissionRequest)
           (results : List EvaluationResult),
           f.ForInput toUnstructured toUnstructuredReq elapsed versionedAttr
               versionedParams request = Except.ok results →
           results.length = exprs.length
           ∧ ∀ (i : Nat) (hr : i < results.length) (he : i < exprs.length),
               (results.get ⟨i, hr⟩).expressionAccessor = some (exprs.get ⟨i, he⟩)) := by
  have hlen : ¬exprs.length = 0 := by
    simpa [List.length_eq_zero] using hne
  refine ⟨NewFilter (exprs.map
      (fun expressionAccessor => CompileCELExpression celCompile expressionAccessor hasParam)),
    ?_, ?_, ?_, ?_⟩
  · unfold filterCompiler.Compile
    simp [hlen]
  · simp [NewFilter]
  · intro i hf he
    simp only [NewFilter, List.get_eq_getElem, List.getElem_map]
    exact compileCELExpression_accessor celCompile (exprs.get ⟨i, he⟩) hasParam
  · intro toUnstructured toUnstructuredReq elapsed versionedAttr versionedParams request
      results hok
    obtain ⟨va, hva, hres⟩ := (forInput_ok_iff toUnstructured toUnstructuredReq elapsed _
      versionedAttr versionedParams request results).mp hok
    subst hres
    refine ⟨by simp [evalLoop_length, NewFilter], ?_⟩
    intro i hr he
    have hf : i < (exprs.map
        (fun expressionAccessor =>
          CompileCELExpression celCompile expressionAccessor hasParam)).length := by
      simpa using he
    rw [evalLoop_get elapsed va 0 _ i hr hf, evalCompilationResult_accessor]
    simp only [NewFilter, List.get_eq_getElem, List.getElem_map]
    rw [compileCELExpression_accessor]

/-- Witness for C1: the theorem instantiated at a concrete compiler and the
two-expression list, with the non-emptiness hypothesis discharged by `decide`. -/
theorem compile_forInput_positional_stability_witness :
    ∃ f : filter,
      filterCompiler.Compile celCompileOk [eaRepl, eaBogus] true = some f
      ∧ f.compilationResults.length = ([eaRepl, eaBogus] : List ExpressionAccessor).length
      ∧ (∀ (i : Nat) (hf : i < f.compilationResults.length)
           (he : i < ([eaRepl, eaBogus] : List ExpressionAccessor).length),
          (f.compilationResults.get ⟨i, hf⟩).expressionAccessor
            = ([eaRepl, eaBogus] : List ExpressionAccessor).get ⟨i, he⟩)
      ∧ (∀ (toUnstructured : RuntimeObject → Except String Unstr)
           (toUnstructuredReq : AdmissionRequest → Except String Unstr)
           (elapsed : Nat → Nat) (versionedAttr : VersionedAttributes)
           (versionedParams : Option RuntimeObject) (request : Option AdmissionRequest)
           (results : List EvaluationResult),
           f.ForInput toUnstructured toUnstructuredReq elapsed versionedAttr
               versionedParams request = Except.ok results →
           results.length = ([eaRepl, eaBogus] : List ExpressionAccessor).length
           ∧ ∀ (i : Nat) (hr : i < results.length)
               (he : i < ([eaRepl, eaBogus] : List ExpressionAccessor).length),
               (results.get ⟨i, hr⟩).expressionAccessor
                 = some (([eaRepl, eaBogus] : List ExpressionAccessor).get ⟨i, he⟩)) :=
  compile_forInput_positional_stability celCompileOk [eaRepl, eaBogus] true (by decide)

/-- Claim C2: in a `ForInput` call whose input conversions succeed (activation
`va` built), if expression `i` compiled (no error, program present) and its
program signals a runtime error, that slot's error is the wrapped message
containing expression `i`'s own source text and its value field stays empty;
every slot of the same call, including every subsequent one, is still the
evaluation of its own compilation result; and the call's top-level return is
`Except.ok`, never the per-expression error. -/
theorem forInput_eval_error_isolated
    (toUnstructured : RuntimeObject → Except String Unstr)
    (toUnstructuredReq : AdmissionRequest → Except String Unstr)
    (elapsed : Nat → Nat) (f : filter) (versionedAttr : VersionedAttributes)
    (versionedParams : Option RuntimeObject) (request : Option AdmissionRequest)
    (va : evaluationActivation)
    (hva : buildActivation toUnstructured toUnstructuredReq versionedAttr
        versionedParams request = Except.ok va)
    (i : Nat) (hi : i < f.compilationResults.length) (prog : Program) (msg : String)
    (hnoerr : (f.compilationResults.get ⟨i, hi⟩).error = none)
    (hprog : (f.compilationResults.get ⟨i, hi⟩).program = some prog)
    (heval : prog.Eval va = Except.error msg) :
    ∃ results : List EvaluationResult,
      f.ForInput toUnstructured toUnstructuredReq elapsed versionedAttr
          versionedParams request = Except.ok results
      ∧ results.length = f.compilationResults.length
      ∧ (∀ (hr : i < results.length),
          (results.get ⟨i, hr⟩).error
            = some ("expression '"
                ++ (f.compilationResults.get ⟨i, hi⟩).expressionAccessor.getExpression
                ++ "' resulted in error: " ++ msg)
          ∧ (results.get ⟨i, hr⟩).evalResult = none)
      ∧ (∀ (j : Nat) (hjr : j < results.length) (hj : j < f.compilationResults.length),
          results.get ⟨j, hjr⟩
            = evalCompilationResult (elapsed j) va (f.compilationResults.get ⟨j, hj⟩)) := by
  refine ⟨evalLoop elapsed va 0 f.compilationResults, ?_, ?_, ?_, ?_⟩
  · unfold filter.ForInput
    simp [hva]
  · exact evalLoop_length elapsed va 0 f.compilationResults
  · intro hr
    rw [show (evalLoop elapsed va 0 f.compilationResults).get ⟨i, hr⟩
          = evalCompilationResult (elapsed i) va (f.compilationResults.get ⟨i, hi⟩) from by
        simpa using evalLoop_get elapsed va 0 f.compilationResults i hr hi,
      evalCompilationResult_eval_error (elapsed i) va _ prog msg hnoerr hprog heval]
    exact ⟨rfl, rfl⟩
  · intro j hjr hj
    simpa using evalLoop_get elapsed va 0 f.compilationResults j hjr hj

/-- Witness for C2: a one-expression filter whose program fails at run time, on
all-nil inputs; the hypotheses are discharged by `rfl`/`decide` and the wrapped
message contains the expression source. -/
theorem forInput_eval_error_isolated_witness :
    ∃ results : List EvaluationResult,
      filter.ForInput convOk convReqOk zeroElapsed (NewFilter [crBad]) emptyAttrs none none
        = Except.ok results
      ∧ results.length = (NewFilter [crBad]).compilationResults.length
      ∧ (∀ (hr : 0 < results.length),
          (results.get ⟨0, hr⟩).error
            = some ("expression '"
                ++ ((NewFilter [crBad]).compilationResults.get
                      ⟨0, Nat.zero_lt_one⟩).expressionAccessor.getExpression
                ++ "' resulted in error: " ++ "no such field")
          ∧ (results.get ⟨0, hr⟩).evalResult = none)
      ∧ (∀ (j : Nat) (hjr : j < results.length)
          (hj : j < (NewFilter [crBad]).compilationResults.length),
          results.get ⟨j, hjr⟩
            = evalCompilationResult (zeroElapsed j) emptyActivation
                ((NewFilter [crBad]).compilationResults.get ⟨j, hj⟩)) :=
  forInput_eval_error_isolated convOk convReqOk zeroElapsed (NewFilter [crBad]) emptyAttrs
    none none emptyActivation rfl 0 Nat.zero_lt_one progBad "no such field" rfl rfl rfl

/-- Claim C3: in any `ForInput` call that returns results, a slot whose
compilation result carries a compile error records the wrapped
`compilation error: ...` message with no value and zero elapsed time (no
execution attempt); a slot whose compilation result has no program and no
recorded error records the internal-error message with zero elapsed time while
the loop still produces every other slot; and on a mixed list `[A, B]` where
`A` failed to compile and `B` compiled and evaluates to a value, the same call
yields a compile-error message for slot 0 and a value with no error for
slot 1. -/
theorem forInput_compile_error_slots
    (toUnstructured : RuntimeObject → Except String Unstr)
    (toUnstructuredReq : AdmissionRequest → Except String Unstr)
    (elapsed : Nat → Nat) :
    (∀ (f : filter) (versionedAttr : VersionedAttributes)
       (versionedParams : Option RuntimeObject) (request : Option AdmissionRequest)
       (results : List EvaluationResult) (i : Nat)
       (hi : i < f.compilationResults.length) (e : String),
       f.ForInput toUnstructured toUnstructuredReq elapsed versionedAttr
           versionedParams request = Except.ok results →
       (f.compilationResults.get ⟨i, hi⟩).error = some e →
       ∀ (hr : i < results.length),
         (results.get ⟨i, hr⟩).error = some ("compilation error: " ++ e)
         ∧ (results.get ⟨i, hr⟩).evalResult = none
         ∧ (results.get ⟨i, hr⟩).elapsed = 0)
  ∧ (∀ (f : filter) (versionedAttr : VersionedAttributes)
       (versionedParams : Option RuntimeObject) (request : Option AdmissionRequest)
       (results : List EvaluationResult) (i : Nat)
       (hi : i < f.compilationResults.length),
       f.ForInput toUnstructured toUnstructuredReq elapsed versionedAttr
           versionedParams request = Except.ok results →
       (f.compilationResults.get ⟨i, hi⟩).error = none →
       (f.compilationResults.get ⟨i, hi⟩).program = none →
       results.length = f.compilationResults.length
       ∧ ∀ (hr : i < results.length),
           (results.get ⟨i, hr⟩).error = some "unexpected internal error compiling expression"
           ∧ (results.get ⟨i, hr⟩).elapsed = 0)
  ∧ (∀ (crA crB : CompilationResult) (e : String) (prog : Program) (v : CelVal)
       (versionedAttr : VersionedAttributes) (versionedParams : Option RuntimeObject)
       (request : Option AdmissionRequest) (va : evaluationActivation)
       (results : List EvaluationResult),
       crA.error = some e →
       crB.error = none →
       crB.program = some prog →
       buildActivation toUnstructured toUnstructuredReq versionedAttr
           versionedParams request = Except.ok va →
       prog.Eval va = Except.ok v →
       (NewFilter [crA, crB]).ForInput toUnstructured toUnstructuredReq elapsed
           versionedAttr versionedParams request = Except.ok results →
       results.length = 2
       ∧ (∀ (h0 : 0 < results.length),
           (results.get ⟨0, h0⟩).error = some ("compilation error: " ++ e))
       ∧ (∀ (h1 : 1 < results.length),
           (results.get ⟨1, h1⟩).error = none
           ∧ (results.get ⟨1, h1⟩).evalResult = some v)) := by
  have hslot : ∀ (f : filter) (versionedAttr : VersionedAttributes)
      (versionedParams : Option RuntimeObject) (request : Option AdmissionRequest)
      (results : List EvaluationResult),
      f.ForInput toUnstructured toUnstructuredReq elapsed versionedAttr
          versionedParams request = Except.ok results →
      ∃ va, buildActivation toUnstructured toUnstructuredReq versionedAttr
          versionedParams request = Except.ok va
        ∧ results.length = f.compilationResults.length
        ∧ ∀ (j : Nat) (hjr : j < results.length) (hj : j < f.compilationResults.length),
            results.get ⟨j, hjr⟩
              = evalCompilationResult (elapsed j) va (f.compilationResults.get ⟨j, hj⟩) := by
    intro f versionedAttr versionedParams request results hok
    obtain ⟨va, hva, hres⟩ := (forInput_ok_iff toUnstructured toUnstructuredReq elapsed f
      versionedAttr versionedParams request results).mp hok
    subst hres
    refine ⟨va, hva, evalLoop_length elapsed va 0 f.compilationResults, ?_⟩
    intro j hjr hj
    simpa using evalLoop_get elapsed va 0 f.compilationResults j hjr hj
  refine ⟨?_, ?_, ?_⟩
  · intro f versionedAttr versionedParams request results i hi e hok herr hr
    obtain ⟨va, _, _, hget⟩ := hslot f versionedAttr versionedParams request results hok
    rw [hget i hr hi, evalCompilationResult_compile_error (elapsed i) va _ e herr]
    exact ⟨rfl, rfl, rfl⟩
  · intro f versionedAttr versionedParams request results i hi hok herr hprog
    obtain ⟨va, _, hlen, hget⟩ := hslot f versionedAttr versionedParams request results hok
    refine ⟨hlen, ?_⟩
    intro hr
    rw [hget i hr hi, evalCompilationResult_internal_error (elapsed i) va _ herr hprog]
    exact ⟨rfl, rfl⟩
  · intro crA crB e prog v versionedAttr versionedParams request va results
      herrA herrB hprogB hva heval hok
    obtain ⟨va2, hva2, hlen, hget⟩ := hslot (NewFilter [crA, crB]) versionedAttr
      versionedParams request results hok
    rw [hva] at hva2
    cases hva2
    have h2 : results.length = 2 := by simpa [NewFilter] using hlen
    refine ⟨h2, ?_, ?_⟩
    · intro h0
      rw [hget 0 h0 (by simp [NewFilter])]
      show (evalCompilationResult (elapsed 0) va crA).error
        = some ("compilation error: " ++ e)
      rw [evalCompilationResult_compile_error (elapsed 0) va crA e herrA]
    · intro h1
      rw [hget 1 h1 (by simp [NewFilter])]
      show (evalCompilationResult (elapsed 1) va crB).error = none
        ∧ (evalCompilationResult (elapsed 1) va crB).evalResult = some v
      rw [evalCompilationResult_eval_ok (elapsed 1) va crB prog v herrB hprogB heval]
      exact ⟨rfl, rfl⟩

/-- Witness for C3: the mixed-list scenario with a concrete failed-to-compile
expression `A` and a concrete succeeding expression `B`, on all-nil inputs. -/
theorem forInput_compile_error_slots_witness :
    ([resultCompileFail, resultOk].length = 2)
    ∧ (∀ (h0 : 0 < [resultCompileFail, resultOk].length),
        ([resultCompileFail, resultOk].get ⟨0, h0⟩).error
          = some ("compilation error: " ++ "type error"))
    ∧ (∀ (h1 : 1 < [resultCompileFail, resultOk].length),
        ([resultCompileFail, resultOk].get ⟨1, h1⟩).error = none
        ∧ ([resultCompileFail, resultOk].get ⟨1, h1⟩).evalResult = some 7) := by
  have h := (forInput_compile_error_slots convOk convReqOk zeroElapsed).2.2
    crCompileFail crOk "type error" progOk 7 emptyAttrs none none emptyActivation
    [resultCompileFail, resultOk] rfl rfl rfl rfl rfl rfl
  exact h

/-- Claim C4: if projecting the old object, the new object, the params object
or the request metadata fails, `ForInput` returns that error as its top-level
result (hence no `EvaluationResult` list at all — the `Except` is `error`, not
`ok`, so no partial results exist and no expression is executed). The four
conjuncts follow the source's conversion order. -/
theorem forInput_conversion_failure_aborts
    (toUnstructured : RuntimeObject → Except String Unstr)
    (toUnstructuredReq : AdmissionRequest → Except String Unstr)
    (elapsed : Nat → Nat) (f : filter) (versionedAttr : VersionedAttributes)
    (versionedParams : Option RuntimeObject) (request : Option AdmissionRequest)
    (e : String) :
    (objectToResolveVal toUnstructured versionedAttr.versionedOldObject = Except.error e →
      f.ForInput toUnstructured toUnstructuredReq elapsed versionedAttr
          versionedParams request = Except.error e)
  ∧ (∀ oldObjectVal,
      objectToResolveVal toUnstructured versionedAttr.versionedOldObject
          = Except.ok oldObjectVal →
      objectToResolveVal toUnstructured versionedAttr.versionedObject = Except.error e →
      f.ForInput toUnstructured toUnstructuredReq elapsed versionedAttr
          versionedParams request = Except.error e)
  ∧ (∀ oldObjectVal objectVal,
      objectToResolveVal toUnstructured versionedAttr.versionedOldObject
          = Except.ok oldObjectVal →
      objectToResolveVal toUnstructured versionedAttr.versionedObject
          = Except.ok objectVal →
      objectToResolveVal toUnstructured versionedParams = Except.error e →
      f.ForInput toUnstructured toUnstructuredReq elapsed versionedAttr
          versionedParams request = Except.error e)
  ∧ (∀ oldObjectVal objectVal paramsVal,
      objectToResolveVal toUnstructured versionedAttr.versionedOldObject
          = Except.ok oldObjectVal →
      objectToResolveVal toUnstructured versionedAttr.versionedObject
          = Except.ok objectVal →
      objectToResolveVal toUnstructured versionedParams = Except.ok paramsVal →
      convertObjectToUnstructured toUnstructuredReq request = Except.error e →
      f.ForInput toUnstructured toUnstructuredReq elapsed versionedAttr
          versionedParams request = Except.error e)
  ∧ (∀ results : List EvaluationResult,
      f.ForInput toUnstructured toUnstructuredReq elapsed versionedAttr
          versionedParams request = Except.error e →
      f.ForInput toUnstructured toUnstructuredReq elapsed versionedAttr
          versionedParams request ≠ Except.ok results) := by
  refine ⟨?_, ?_, ?_, ?_, ?_⟩
  · intro h1
    unfold filter.ForInput buildActivation
    simp [h1]
  · intro oldObjectVal h1 h2
    unfold filter.ForInput buildActivation
    simp [h1, h2]
  · intro oldObjectVal objectVal h1 h2 h3
    unfold filter.ForInput buildActivation
    simp [h1, h2, h3]
  · intro oldObjectVal objectVal paramsVal h1 h2 h3 h4
    unfold filter.ForInput buildActivation
    simp [h1, h2, h3, h4]
  · intro results herr hok
    rw [herr] at hok
    exact Except.noConfusion hok

/-- Witness for C4: a converter that fails on a present old object makes the
whole call fail with that error, at concrete inputs. -/
theorem forInput_conversion_failure_aborts_witness :
    filter.ForInput convBad convReqOk zeroElapsed (NewFilter [crOk])
        { versionedObject := none, versionedOldObject := some { payload := 3 } }
        none none
      = Except.error "conversion failed" := by
  have h := forInput_conversion_failure_aborts convBad convReqOk zeroElapsed
    (NewFilter [crOk])
    { versionedObject := none, versionedOldObject := some { payload := 3 } }
    none none "conversion failed"
  exact h.1 rfl

/-- Claim C10: a nil request-metadata pointer does not make the call fail: the
nil request converts to an empty mapping without error, so (when the three
object projections succeed) the activation is built with a nil `request` slot
and `ForInput` returns a result list. -/
theorem nil_request_converts_empty
    (toUnstructured : RuntimeObject → Except String Unstr)
    (toUnstructuredReq : AdmissionRequest → Except String Unstr)
    (elapsed : Nat → Nat) (f : filter) (versionedAttr : VersionedAttributes)
    (versionedParams : Option RuntimeObject)
    (oldObjectVal objectVal paramsVal : Option Unstr)
    (hold : objectToResolveVal toUnstructured versionedAttr.versionedOldObject
        = Except.ok oldObjectVal)
    (hobj : objectToResolveVal toUnstructured versionedAttr.versionedObject
        = Except.ok objectVal)
    (hparams : objectToResolveVal toUnstructured versionedParams = Except.ok paramsVal) :
    convertObjectToUnstructured toUnstructuredReq (none : Option AdmissionRequest)
        = Except.ok { object := none }
    ∧ buildActivation toUnstructured toUnstructuredReq versionedAttr versionedParams none
        = Except.ok { object := objectVal, oldObject := oldObjectVal,
                      params := paramsVal, request := none }
    ∧ f.ForInput toUnstructured toUnstructuredReq elapsed versionedAttr versionedParams none
        = Except.ok (evalLoop elapsed
            { object := objectVal, oldObject := oldObjectVal,
              params := paramsVal, request := none }
            0 f.compilationResults) := by
  have hact : buildActivation toUnstructured toUnstructuredReq versionedAttr
      versionedParams none
      = Except.ok { object := objectVal, oldObject := oldObjectVal,
                    params := paramsVal, request := none } := by
    unfold buildActivation
    simp [hold, hobj, hparams, convertObjectToUnstructured]
  refine ⟨rfl, hact, ?_⟩
  unfold filter.ForInput
  simp [hact]

/-- Witness for C10: on a concrete filter with all objects nil and a nil
request, the call succeeds and the request slot is nil. -/
theorem nil_request_converts_empty_witness :
    convertObjectToUnstructured convReqOk (none : Option AdmissionRequest)
        = Except.ok { object := none }
    ∧ buildActivation convOk convReqOk emptyAttrs none none
        = Except.ok { object := none, oldObject := none, params := none, request := none }
    ∧ filter.ForInput convOk convReqOk zeroElapsed (NewFilter [crOk]) emptyAttrs none none
        = Except.ok (evalLoop zeroElapsed
            { object := none, oldObject := none, params := none, request := none }
            0 (NewFilter [crOk]).compilationResults) := by
  have h := nil_request_converts_empty convOk convReqOk zeroElapsed (NewFilter [crOk])
    emptyAttrs none none none none rfl rfl rfl
  exact h

end KubeCelFilter
